import Mathlib

/-!
Shallow embedding of the ultrafxr numeric-kernel core:

* `src/c/ops/sin1_2.c` — the exemplar operator `ufxr_sin1_2` in its two
  build-time-selected implementations: the SSE2 vector path and the scalar
  fallback path.
* `src/c/compiler/error.h` — the error registry interface.

IEEE 32-bit floating-point arithmetic is embedded as exact arithmetic over
ℚ: each float value is represented by the rational it denotes, and the
arithmetic steps of the kernel (integer conversion, subtraction, the
triangle folds, the quadratic shaping) are carried out exactly.  The
32-bit-integer range behaviour of the two float-to-integer conversions is
modelled explicitly, since it is where the two implementations genuinely
differ from ideal arithmetic: `_mm_cvtps_epi32` produces the x86 integer
indefinite value `-2^31` on overflow, while the C cast `(int)x` is
undefined behaviour when the truncated value does not fit in `int`.
-/

namespace UltraFXR

/-- Modelled from the spec: `UFXR_QUANTUM` comes from `c/ops/ops.h`, which is
not under `src/`; the spec fixes the quantum at 4, the SSE vector lane
count ("quantum = 4, matching the native vector-instruction lane count"). -/
def UFXR_QUANTUM : Nat := 4

/-- C truncation toward zero: the cast `(int)x` discards the fractional
part, so it is `⌊x⌋` for a non-negative value and `⌈x⌉` for a negative one
(C11 6.3.1.4). -/
def truncTowardZero (x : ℚ) : ℤ := if 0 ≤ x then ⌊x⌋ else ⌈x⌉

/-- Round to nearest integer, ties to even: the rounding performed by
`_mm_cvtps_epi32` under the default MXCSR rounding mode used on line 16 of
`sin1_2.c`. -/
def rne (x : ℚ) : ℤ :=
  if x - ⌊x⌋ < 1/2 then ⌊x⌋
  else if 1/2 < x - ⌊x⌋ then ⌊x⌋ + 1
  else if ⌊x⌋ % 2 = 0 then ⌊x⌋ else ⌊x⌋ + 1

/-- Value computed by `_mm_cvtps_epi32`: round to nearest even; a result not
representable in 32 bits yields the x86 integer-indefinite value `-2^31`. -/
def cvtps_epi32 (x : ℚ) : ℤ :=
  if -(2^31) ≤ rne x ∧ rne x ≤ 2^31 - 1 then rne x else -(2^31)

/-- Quadratic shaping step shared by both loop bodies:
`x * (8.0f - 16.0f * fabsf(x))` (scalar line 37) and
`_mm_mul_ps(x, _mm_sub_ps(c2, _mm_mul_ps(c3, _mm_and_ps(x, abs))))`
(vector line 17), with `c2 = 8.0f`, `c3 = 16.0f`, and the `abs` mask
clearing the sign bit. -/
def quadShape (x : ℚ) : ℚ := x * (8 - 16 * |x|)

/-- One lane of the SSE2 `ufxr_sin1_2` loop body (`sin1_2.c` lines 15-17):
`x = _mm_sub_ps(x, _mm_cvtepi32_ps(_mm_cvtps_epi32(x)))` followed by the
quadratic shaping. -/
def sin1_2_sse2_elem (x : ℚ) : ℚ := quadShape (x - cvtps_epi32 x)

/-- Phase-reduction step of the scalar `ufxr_sin1_2` loop body
(`sin1_2.c` line 30): `x -= (float)(int)x`, truncation toward zero. -/
def scalarPhaseReduce (x : ℚ) : ℚ := x - truncTowardZero x

/-- The two conditional triangle folds of the scalar loop body
(`sin1_2.c` lines 31-36): `t1 = 0.5f - x; t2 = -0.5f - x;
if (t1 < x) x = t1; if (t2 > x) x = t2;`. -/
def foldTri (x : ℚ) : ℚ :=
  let t1 := 1/2 - x
  let t2 := -(1/2) - x
  let x2 := if t1 < x then t1 else x
  if t2 > x2 then t2 else x2

/-- One iteration of the scalar `ufxr_sin1_2` loop body
(`sin1_2.c` lines 29-37). -/
def sin1_2_scalar_elem (x : ℚ) : ℚ := quadShape (foldTri (scalarPhaseReduce x))

/-- C semantics of `(float)(int)x` (`sin1_2.c` line 30): the conversion is
defined only when the truncated value is representable in a 32-bit `int`;
otherwise the behaviour is undefined (`none`). -/
def cvt_int32 (x : ℚ) : Option ℤ :=
  if -(2^31) ≤ truncTowardZero x ∧ truncTowardZero x ≤ 2^31 - 1
  then some (truncTowardZero x) else none

/-- Scalar loop body with the C undefined-behaviour of the float-to-int
conversion made explicit: `none` exactly when the conversion on line 30 is
undefined behaviour. -/
def sin1_2_scalar_elem_chk (x : ℚ) : Option ℚ :=
  (cvt_int32 x).map fun n => quadShape (foldTri (x - n))

/-- The SSE2 loop (`sin1_2.c` lines 14-19) consumes the input four lanes at
a time; under the asserted precondition `n % UFXR_QUANTUM == 0` no partial
group is ever reached. -/
def sseChunks : List ℚ → List ℚ
  | x0 :: x1 :: x2 :: x3 :: rest =>
      sin1_2_sse2_elem x0 :: sin1_2_sse2_elem x1 :: sin1_2_sse2_elem x2 ::
        sin1_2_sse2_elem x3 :: sseChunks rest
  | _ => []

/-- The SSE2 `ufxr_sin1_2(n, outs, xs)` (`sin1_2.c` lines 9-20) as a buffer
transformer: it writes the processed first `n` input elements over the
first `n` output cells and leaves the rest of the output buffer alone. -/
def ufxr_sin1_2_sse2 (n : Nat) (outs xs : List ℚ) : List ℚ :=
  sseChunks (xs.take n) ++ outs.drop n

/-- The scalar `ufxr_sin1_2(n, outs, xs)` (`sin1_2.c` lines 26-39) as a
buffer transformer. -/
def ufxr_sin1_2_scalar (n : Nat) (outs xs : List ℚ) : List ℚ :=
  ((xs.take n).map sin1_2_scalar_elem) ++ outs.drop n

/-- Error code `ERR_OK` from `error.h`: no error. -/
def ERR_OK : ℤ := 0

/-- Error code `ERR_NOMEM` from `error.h`: out of memory. -/
def ERR_NOMEM : ℤ := 1

/-- Error code `ERR_LARGETEXT` from `error.h`: source text too large. -/
def ERR_LARGETEXT : ℤ := 2

/-- Modelled from the spec: the implementation of `ufxr_errname` is not
under `src/` (only its declaration in `error.h`); the header documents
`ufxr_errname(ERR_LARGETEXT) = "LARGETEXT"` and the spec asks for a
canonical short all-caps token per code.  Outside the closed code set the
behaviour is a precondition violation; the model returns `""` there. -/
def ufxr_errname : ℤ → String
  | 0 => "OK"
  | 1 => "NOMEM"
  | 2 => "LARGETEXT"
  | _ => ""

/-- Modelled from the spec: the implementation of `ufxr_errtext` is not
under `src/` (only its declaration in `error.h`); the spec asks for a
human-readable sentence per code, with the success code described as
success. -/
def ufxr_errtext : ℤ → String
  | 0 => "No error."
  | 1 => "Out of memory."
  | 2 => "Source text too large."
  | _ => ""

/-! ### Helper lemmas about the rounding and shaping steps -/

/-- The round-to-nearest-even reduction lands in `[-1/2, 1/2]`. -/
lemma rne_sub_bounds (x : ℚ) : -(1/2) ≤ x - rne x ∧ x - rne x ≤ 1/2 := by
  have h1 : (⌊x⌋ : ℚ) ≤ x := Int.floor_le x
  have h2 : x < ⌊x⌋ + 1 := Int.lt_floor_add_one x
  unfold rne
  split_ifs with ha hb hc <;> push_cast <;> constructor <;> linarith

/-- Rounding an integer to nearest even is the identity. -/
lemma rne_intCast (k : ℤ) : rne (k : ℚ) = k := by
  unfold rne
  rw [Int.floor_intCast]
  norm_num

/-- Round-to-nearest-even commutes with negation (the tie is sent to the even
neighbour on both sides). -/
lemma rne_neg (x : ℚ) : rne (-x) = -rne x := by
  rcases eq_or_ne ((⌊x⌋ : ℚ)) x with hx | hx
  · have h2 : -x = ((-⌊x⌋ : ℤ) : ℚ) := by push_cast; rw [hx]
    rw [h2, rne_intCast]
    conv_rhs => rw [show x = ((⌊x⌋ : ℤ) : ℚ) from hx.symm, rne_intCast]
  · have hfl : (⌊x⌋ : ℚ) < x := lt_of_le_of_ne (Int.floor_le x) hx
    have hlt1 : x < ⌊x⌋ + 1 := Int.lt_floor_add_one x
    have hneg : ⌊-x⌋ = -⌊x⌋ - 1 := by
      rw [Int.floor_eq_iff]
      constructor
      · push_cast; linarith
      · push_cast; linarith
    unfold rne
    rw [hneg]
    push_cast
    split_ifs <;> first | omega | (exfalso; linarith)

/-- Truncation toward zero reduces into the open interval `(-1, 1)`. -/
lemma scalarPhaseReduce_bounds (x : ℚ) :
    -1 < scalarPhaseReduce x ∧ scalarPhaseReduce x < 1 := by
  unfold scalarPhaseReduce truncTowardZero
  split_ifs with h
  · have h1 : (⌊x⌋ : ℚ) ≤ x := Int.floor_le x
    have h2 : x < ⌊x⌋ + 1 := Int.lt_floor_add_one x
    constructor <;> linarith
  · have h1 : x ≤ ⌈x⌉ := Int.le_ceil x
    have h2 : (⌈x⌉ : ℚ) < x + 1 := Int.ceil_lt_add_one x
    constructor <;> linarith

/-- Truncation toward zero commutes with negation. -/
lemma truncTowardZero_neg (x : ℚ) : truncTowardZero (-x) = -truncTowardZero x := by
  unfold truncTowardZero
  rcases lt_trichotomy x 0 with h | h | h
  · rw [if_pos (by linarith : (0:ℚ) ≤ -x), if_neg (by linarith : ¬(0:ℚ) ≤ x),
      Int.floor_neg]
  · subst h; norm_num
  · rw [if_neg (by linarith : ¬(0:ℚ) ≤ -x), if_pos (by linarith : (0:ℚ) ≤ x),
      Int.ceil_neg]

/-- Inside the 32-bit range, `_mm_cvtps_epi32` is exactly round-to-nearest-even. -/
lemma cvt_eq_rne {x : ℚ} (h : |x| ≤ 2^31 - 1) : cvtps_epi32 x = rne x := by
  obtain ⟨hb1, hb2⟩ := rne_sub_bounds x
  obtain ⟨ha1, ha2⟩ := abs_le.mp h
  have h1 : (rne x : ℚ) < ((2^31 : ℤ) : ℚ) := by push_cast; linarith
  have h2 : ((-(2^31) : ℤ) : ℚ) < (rne x : ℚ) := by push_cast; linarith
  have h1' : rne x < 2^31 := by exact_mod_cast h1
  have h2' : -(2^31) < rne x := by exact_mod_cast h2
  unfold cvtps_epi32
  rw [if_pos ⟨by omega, by omega⟩]

/-- The quadratic shaping is an odd function. -/
lemma quadShape_odd (x : ℚ) : quadShape (-x) = -quadShape x := by
  unfold quadShape
  rw [abs_neg]
  ring

/-- On the reduced interval the shaped output is bounded by 1 in magnitude. -/
lemma quadShape_le_one {y : ℚ} (h1 : -(1/2) ≤ y) (h2 : y ≤ 1/2) : |quadShape y| ≤ 1 := by
  unfold quadShape
  rcases le_or_lt 0 y with hy | hy
  · rw [abs_of_nonneg hy, abs_le]
    constructor <;> nlinarith [sq_nonneg (4*y - 1)]
  · rw [abs_of_neg hy, abs_le]
    constructor <;> nlinarith [sq_nonneg (4*y + 1)]

/-- The quadratic is symmetric about `1/4` on the nonnegative half wave. -/
lemma quadShape_reflect {a b : ℚ} (ha : 0 ≤ a) (hb : 0 ≤ b) (hab : a + b = 1/2) :
    quadShape a = quadShape b := by
  unfold quadShape
  rw [abs_of_nonneg ha, abs_of_nonneg hb]
  linear_combination (-16 * (a - b)) * hab

/-- The quadratic is symmetric about `-1/4` on the nonpositive half wave. -/
lemma quadShape_reflect_neg {a b : ℚ} (ha : a ≤ 0) (hb : b ≤ 0) (hab : a + b = -(1/2)) :
    quadShape a = quadShape b := by
  have := quadShape_reflect (a := -a) (b := -b) (by linarith) (by linarith) (by linarith)
  have goal := this
  rw [quadShape_odd, quadShape_odd] at goal
  linarith

/-- First fold taken: for `x > 1/4` the folds produce `1/2 - x`. -/
lemma foldTri_of_gt {x : ℚ} (h : 1/4 < x) : foldTri x = 1/2 - x := by
  simp only [foldTri]
  rw [if_pos (by linarith : 1/2 - x < x),
    if_neg (by linarith : ¬(-(1/2) - x > 1/2 - x))]

/-- Second fold taken: for `x < -1/4` the folds produce `-1/2 - x`. -/
lemma foldTri_of_lt {x : ℚ} (h : x < -(1/4)) : foldTri x = -(1/2) - x := by
  simp only [foldTri]
  rw [if_neg (by linarith : ¬(1/2 - x < x)), if_pos (by linarith : -(1/2) - x > x)]

/-- No fold taken on the middle segment. -/
lemma foldTri_of_mid {x : ℚ} (h1 : -(1/4) ≤ x) (h2 : x ≤ 1/4) : foldTri x = x := by
  simp only [foldTri]
  rw [if_neg (by linarith : ¬(1/2 - x < x)), if_neg (by linarith : ¬(-(1/2) - x > x))]

/-- The folds send `(-1, 1)` into `[-1/2, 1/2]`. -/
lemma foldTri_mem {x : ℚ} (h1 : -1 < x) (h2 : x < 1) :
    -(1/2) ≤ foldTri x ∧ foldTri x ≤ 1/2 := by
  rcases lt_or_le (1/4 : ℚ) x with h | h
  · rw [foldTri_of_gt h]; constructor <;> linarith
  · rcases lt_or_le x (-(1/4) : ℚ) with h' | h'
    · rw [foldTri_of_lt h']; constructor <;> linarith
    · rw [foldTri_of_mid h' h]; constructor <;> linarith

/-- Key equivalence: folding any truncation-reduced representative and then
shaping gives the same value as shaping the nearest-integer-reduced
representative, by the reflection symmetry of the quadratic. -/
lemma quadShape_foldTri {x y : ℚ} (h1 : -1 < x) (h2 : x < 1)
    (h3 : -(1/2) ≤ y) (h4 : y ≤ 1/2)
    (hk : x - y = -1 ∨ x - y = 0 ∨ x - y = 1) :
    quadShape (foldTri x) = quadShape y := by
  rcases lt_or_le (1/4 : ℚ) x with hA | hA
  · rw [foldTri_of_gt hA]
    rcases hk with hk | hk | hk
    · exfalso; linarith
    · exact quadShape_reflect (by linarith) (by linarith) (by linarith)
    · exact quadShape_reflect_neg (by linarith) (by linarith) (by linarith)
  · rcases lt_or_le x (-(1/4) : ℚ) with hB | hB
    · rw [foldTri_of_lt hB]
      rcases hk with hk | hk | hk
      · exact quadShape_reflect (by linarith) (by linarith) (by linarith)
      · exact quadShape_reflect_neg (by linarith) (by linarith) (by linarith)
      · exfalso; linarith
    · rw [foldTri_of_mid hB hA]
      rcases hk with hk | hk | hk
      · exfalso; linarith
      · rw [show x = y by linarith]
      · exfalso; linarith

/-- The scalar loop body computes the shaped nearest-even-reduced value. -/
lemma sin1_2_scalar_elem_eq_rne (x : ℚ) :
    sin1_2_scalar_elem x = quadShape (x - rne x) := by
  obtain ⟨t1, t2⟩ := scalarPhaseReduce_bounds x
  obtain ⟨r1, r2⟩ := rne_sub_bounds x
  have hd : scalarPhaseReduce x - (x - rne x) = ((rne x - truncTowardZero x : ℤ) : ℚ) := by
    unfold scalarPhaseReduce
    push_cast
    ring
  have hlo : ((-2 : ℤ) : ℚ) < ((rne x - truncTowardZero x : ℤ) : ℚ) := by
    rw [← hd]; push_cast; linarith
  have hhi : ((rne x - truncTowardZero x : ℤ) : ℚ) < ((2 : ℤ) : ℚ) := by
    rw [← hd]; push_cast; linarith
  have hlo' : (-2 : ℤ) < rne x - truncTowardZero x := by exact_mod_cast hlo
  have hhi' : rne x - truncTowardZero x < (2 : ℤ) := by exact_mod_cast hhi
  have hdb : rne x - truncTowardZero x = -1 ∨ rne x - truncTowardZero x = 0 ∨
      rne x - truncTowardZero x = 1 := by omega
  have hk : scalarPhaseReduce x - (x - rne x) = -1 ∨
      scalarPhaseReduce x - (x - rne x) = 0 ∨
      scalarPhaseReduce x - (x - rne x) = 1 := by
    rcases hdb with h | h | h
    · left; rw [hd, h]; norm_num
    · right; left; rw [hd, h]; norm_num
    · right; right; rw [hd, h]; norm_num
  unfold sin1_2_scalar_elem
  exact quadShape_foldTri t1 t2 r1 r2 hk

/-- The SSE2 loop body computes the shaped nearest-even-reduced value
whenever the conversion does not overflow. -/
lemma sin1_2_sse2_elem_eq_rne {x : ℚ} (h : |x| ≤ 2^31 - 1) :
    sin1_2_sse2_elem x = quadShape (x - rne x) := by
  unfold sin1_2_sse2_elem
  rw [cvt_eq_rne h]

/-- Two reduced representatives of the same phase are shaped identically:
they are either equal or the two endpoints `±1/2`, where the wave is 0. -/
lemma quadShape_congr {a b : ℚ} (ha1 : -(1/2) ≤ a) (ha2 : a ≤ 1/2)
    (hb1 : -(1/2) ≤ b) (hb2 : b ≤ 1/2) (d : ℤ) (hd : a - b = d) :
    quadShape a = quadShape b := by
  have l1 : ((d : ℤ) : ℚ) ≤ ((1 : ℤ) : ℚ) := by rw [← hd]; push_cast; linarith
  have l2 : ((-1 : ℤ) : ℚ) ≤ ((d : ℤ) : ℚ) := by rw [← hd]; push_cast; linarith
  have l1' : d ≤ 1 := by exact_mod_cast l1
  have l2' : -1 ≤ d := by exact_mod_cast l2
  have hcases : d = -1 ∨ d = 0 ∨ d = 1 := by omega
  rcases hcases with h | h | h
  · subst h
    push_cast at hd
    have hb : b = 1/2 := by linarith
    have ha : a = -(1/2) := by linarith
    rw [ha, hb]
    norm_num [quadShape, abs_of_neg, abs_of_pos]
  · subst h
    push_cast at hd
    rw [show a = b by linarith]
  · subst h
    push_cast at hd
    have ha : a = 1/2 := by linarith
    have hb : b = -(1/2) := by linarith
    rw [ha, hb]
    norm_num [quadShape, abs_of_neg, abs_of_pos]

/-- The empty chunk loop writes nothing. -/
lemma sseChunks_nil : sseChunks [] = [] := rfl

/-- The rational `2^31` is the cast of the integer `2^31`. -/
lemma two_pow31_cast : ((2:ℚ)^31) = ((2^31 : ℤ) : ℚ) := by
  push_cast
  norm_num

/-- At the representable input `2^31` the conversion result `2^31` does not
fit in 32 bits, so `_mm_cvtps_epi32` returns the indefinite value `-2^31`. -/
lemma cvt_two_pow31 : cvtps_epi32 ((2:ℚ)^31) = -(2^31) := by
  unfold cvtps_epi32
  rw [two_pow31_cast, rne_intCast,
    if_neg (by norm_num : ¬(-(2^31) ≤ (2^31 : ℤ) ∧ (2^31 : ℤ) ≤ 2^31 - 1))]

/-- Concrete saturated value of the vector loop body at `x = 2^31`: the
indefinite conversion result makes the "reduced" value `2^32`, far outside
the wave interval, and the shaped output is huge. -/
lemma sse2_elem_two_pow31 : sin1_2_sse2_elem ((2:ℚ)^31) = 2^35 - 2^68 := by
  unfold sin1_2_sse2_elem
  rw [cvt_two_pow31]
  have harg : ((2:ℚ)^31 - ((-(2^31) : ℤ) : ℚ)) = 2^32 := by
    push_cast
    norm_num
  rw [harg, quadShape, abs_of_pos (by norm_num : (0:ℚ) < 2^32)]
  norm_num

/-- At `x = -2^31` the conversion result fits exactly, the reduction gives 0
and the vector loop body outputs 0. -/
lemma sse2_elem_neg_two_pow31 : sin1_2_sse2_elem (-((2:ℚ)^31)) = 0 := by
  unfold sin1_2_sse2_elem
  have hc : cvtps_epi32 (-((2:ℚ)^31)) = -(2^31) := by
    unfold cvtps_epi32
    rw [show -((2:ℚ)^31) = ((-(2^31) : ℤ) : ℚ) by push_cast; norm_num,
      rne_intCast,
      if_pos (by norm_num : -(2^31) ≤ (-(2^31) : ℤ) ∧ (-(2^31) : ℤ) ≤ 2^31 - 1)]
  rw [hc]
  push_cast
  norm_num [quadShape]

/-- The vector loop body maps 0 to 0. -/
lemma sse2_elem_zero : sin1_2_sse2_elem 0 = 0 := by
  norm_num [sin1_2_sse2_elem, cvtps_epi32, rne, quadShape]

/-- Negating the input negates the nearest-even-reduced-and-shaped value. -/
lemma quadShape_rne_odd (x : ℚ) :
    quadShape (-x - rne (-x)) = -quadShape (x - rne x) := by
  rw [rne_neg]
  push_cast
  rw [show -x - -(rne x : ℚ) = -(x - rne x) by ring, quadShape_odd]

example : rne (1/2) = 0 := by norm_num [rne]
example : rne (3/2) = 2 := by norm_num [rne]
example : rne (3/4) = 1 := by norm_num [rne]
example : truncTowardZero (9/10) = 0 := by norm_num [truncTowardZero]
example : truncTowardZero (-(9/10)) = 0 := by norm_num [truncTowardZero]
example : cvtps_epi32 (1/2) = 0 := by norm_num [cvtps_epi32, rne]
example : sin1_2_sse2_elem (1/4) = 1 := by
  norm_num [sin1_2_sse2_elem, cvtps_epi32, rne, quadShape, abs_of_pos, abs_of_neg]
example : sin1_2_scalar_elem (1/4) = 1 := by
  norm_num [sin1_2_scalar_elem, scalarPhaseReduce, truncTowardZero, foldTri, quadShape,
    abs_of_pos, abs_of_neg]
example : sin1_2_scalar_elem (9/10) = -(16/25) := by
  norm_num [sin1_2_scalar_elem, scalarPhaseReduce, truncTowardZero, foldTri, quadShape,
    abs_of_pos, abs_of_neg]
example : sin1_2_sse2_elem (9/10) = -(16/25) := by
  norm_num [sin1_2_sse2_elem, cvtps_epi32, rne, quadShape, abs_of_pos, abs_of_neg]

/-! ### Claim theorems -/

/-- C1: for the exemplar operator with `n = 4` on the input batch
`[0, 0.25, 0.5, -0.25]`, the output batch is `[0, 1, 0, -1]`, produced by
both the vector-instruction implementation and the scalar fallback (here the
agreement is exact, hence within any tolerance). -/
theorem C1_concrete_batch (outs : List ℚ) (h : outs.length = 4) :
    ufxr_sin1_2_sse2 4 outs [0, 1/4, 1/2, -(1/4)] = [0, 1, 0, -1] ∧
    ufxr_sin1_2_scalar 4 outs [0, 1/4, 1/2, -(1/4)] = [0, 1, 0, -1] := by
  have hd : outs.drop 4 = [] := by
    rw [List.drop_eq_nil_iff]
    omega
  constructor
  · rw [ufxr_sin1_2_sse2, hd]
    norm_num [sseChunks, sin1_2_sse2_elem, cvtps_epi32, rne, quadShape,
      abs_of_pos, abs_of_neg]
  · rw [ufxr_sin1_2_scalar, hd]
    have e0 : sin1_2_scalar_elem 0 = 0 := by
      rw [sin1_2_scalar_elem_eq_rne]
      norm_num [rne, quadShape]
    have e1 : sin1_2_scalar_elem (1/4) = 1 := by
      rw [sin1_2_scalar_elem_eq_rne]
      norm_num [rne, quadShape, abs_of_pos]
    have e2 : sin1_2_scalar_elem (1/2) = 0 := by
      rw [sin1_2_scalar_elem_eq_rne]
      norm_num [rne, quadShape, abs_of_pos]
    have e3 : sin1_2_scalar_elem (-(1/4)) = -1 := by
      rw [sin1_2_scalar_elem_eq_rne]
      norm_num [rne, quadShape, abs_of_neg]
    rw [show (([0, 1/4, 1/2, -(1/4)] : List ℚ).take 4) = [0, 1/4, 1/2, -(1/4)]
        from List.take_of_length_le (by simp)]
    simp only [List.map_cons, List.map_nil, List.append_nil]
    rw [e0, e1, e2, e3]

/-- Witness for C1 at the concrete output buffer `[0, 0, 0, 0]`. -/
theorem C1_concrete_batch_witness :
    ([(0:ℚ), 0, 0, 0].length = 4) ∧
    (ufxr_sin1_2_sse2 4 [0, 0, 0, 0] [0, 1/4, 1/2, -(1/4)] = [0, 1, 0, -1] ∧
     ufxr_sin1_2_scalar 4 [0, 0, 0, 0] [0, 1/4, 1/2, -(1/4)] = [0, 1, 0, -1]) :=
  ⟨rfl, C1_concrete_batch [0, 0, 0, 0] rfl⟩

/-- C2 counterexample at `x = 3/4`: the scalar implementation's
phase-reduction step `x -= (float)(int)x` truncates toward zero, leaving 3/4
unchanged — outside the claimed interval `(-1/2, 1/2]` — whereas
nearest-integer reduction gives `-1/4`; the two rounding rules differ. -/
theorem C2_phase_reduction_counterexample :
    scalarPhaseReduce (3/4) = 3/4 ∧ (3/4 : ℚ) - rne (3/4) = -(1/4) ∧
    ¬(scalarPhaseReduce (3/4) ≤ 1/2) := by
  norm_num [scalarPhaseReduce, truncTowardZero, rne]

/-- C2 (amended): the vector implementation phase-reduces by subtracting the
round-to-nearest-even integer, landing in `[-1/2, 1/2]`; the scalar
implementation instead subtracts the truncation toward zero, landing only in
`(-1, 1)`, and then triangle-folds into `[-1/2, 1/2]`; the two rounding
rules differ, but the implementations produce identical outputs. -/
theorem C2_phase_reduction_amended (x : ℚ) (h : |x| ≤ 2^31 - 1) :
    (-(1/2) ≤ x - rne x ∧ x - rne x ≤ 1/2) ∧
    (-1 < scalarPhaseReduce x ∧ scalarPhaseReduce x < 1) ∧
    (-(1/2) ≤ foldTri (scalarPhaseReduce x) ∧
      foldTri (scalarPhaseReduce x) ≤ 1/2) ∧
    sin1_2_scalar_elem x = sin1_2_sse2_elem x := by
  obtain ⟨t1, t2⟩ := scalarPhaseReduce_bounds x
  refine ⟨rne_sub_bounds x, ⟨t1, t2⟩, foldTri_mem t1 t2, ?_⟩
  rw [sin1_2_scalar_elem_eq_rne, sin1_2_sse2_elem_eq_rne h]

/-- Witness for C2 (amended) at `x = 3/4`. -/
theorem C2_phase_reduction_amended_witness :
    (|(3:ℚ)/4| ≤ 2^31 - 1) ∧
    ((-(1/2) ≤ (3:ℚ)/4 - rne (3/4) ∧ (3:ℚ)/4 - rne (3/4) ≤ 1/2) ∧
     (-1 < scalarPhaseReduce (3/4) ∧ scalarPhaseReduce (3/4) < 1) ∧
     (-(1/2) ≤ foldTri (scalarPhaseReduce (3/4)) ∧
       foldTri (scalarPhaseReduce (3/4)) ≤ 1/2) ∧
     sin1_2_scalar_elem (3/4) = sin1_2_sse2_elem (3/4)) :=
  ⟨by norm_num [abs_of_pos], C2_phase_reduction_amended (3/4) (by norm_num [abs_of_pos])⟩

/-- C3: on every input in the domain where both implementations are defined,
the SSE2 implementation and the scalar fallback agree elementwise within the
absolute tolerance 1e-6 (here they agree exactly). -/
theorem C3_cross_implementation_equivalence (x : ℚ) (h : |x| ≤ 2^31 - 1) :
    |sin1_2_sse2_elem x - sin1_2_scalar_elem x| ≤ 1/1000000 := by
  rw [sin1_2_sse2_elem_eq_rne h, sin1_2_scalar_elem_eq_rne, sub_self, abs_zero]
  norm_num

/-- Witness for C3 at `x = 9/10`. -/
theorem C3_cross_implementation_equivalence_witness :
    (|(9:ℚ)/10| ≤ 2^31 - 1) ∧
    |sin1_2_sse2_elem (9/10) - sin1_2_scalar_elem (9/10)| ≤ 1/1000000 :=
  ⟨by norm_num [abs_of_pos],
   C3_cross_implementation_equivalence (9/10) (by norm_num [abs_of_pos])⟩

/-- C4 counterexample: at `x = 0`, `k = 2^31` (an integer whose float is
exactly representable) the vector implementation is fully defined — no UB,
`_mm_cvtps_epi32` merely saturates to the indefinite value `-2^31` — yet
`apply(0 + k) = 2^35 - 2^68 ≠ 0 = apply(0)`, so periodicity as claimed, for
every integer `k`, is false. -/
theorem C4_periodicity_counterexample :
    sin1_2_sse2_elem ((0:ℚ) + ((2^31 : ℤ) : ℚ)) ≠ sin1_2_sse2_elem 0 := by
  have h1 : ((0:ℚ) + ((2^31 : ℤ) : ℚ)) = (2:ℚ)^31 := by
    rw [two_pow31_cast]
    ring
  rw [h1, sse2_elem_two_pow31, sse2_elem_zero]
  norm_num

/-- C4 (amended): periodicity — shifting the input by an integer `k` yields
equal outputs from both implementations whenever both `x` and `x + k` keep
the integer conversions inside 32-bit range (`|x|, |x+k| ≤ 2^31 - 1`);
outside that range the vector conversion saturates to the indefinite value
`-2^31` (and the scalar cast is undefined behaviour) and periodicity fails,
see the counterexample. -/
theorem C4_periodicity (x : ℚ) (k : ℤ) (hx : |x| ≤ 2^31 - 1)
    (hxk : |x + k| ≤ 2^31 - 1) :
    sin1_2_sse2_elem (x + k) = sin1_2_sse2_elem x ∧
    sin1_2_scalar_elem (x + k) = sin1_2_scalar_elem x := by
  obtain ⟨a1, a2⟩ := rne_sub_bounds (x + k)
  obtain ⟨b1, b2⟩ := rne_sub_bounds x
  have key : quadShape (x + k - rne (x + k)) = quadShape (x - rne x) := by
    apply quadShape_congr a1 a2 b1 b2 (k - rne (x + k) + rne x)
    push_cast
    ring
  constructor
  · rw [sin1_2_sse2_elem_eq_rne hxk, sin1_2_sse2_elem_eq_rne hx, key]
  · rw [sin1_2_scalar_elem_eq_rne, sin1_2_scalar_elem_eq_rne, key]

/-- Witness for C4 at `x = 1/4`, `k = 3`. -/
theorem C4_periodicity_witness :
    (|(1:ℚ)/4| ≤ 2^31 - 1) ∧ (|(1:ℚ)/4 + ((3:ℤ) : ℚ)| ≤ 2^31 - 1) ∧
    (sin1_2_sse2_elem ((1:ℚ)/4 + ((3:ℤ) : ℚ)) = sin1_2_sse2_elem (1/4) ∧
     sin1_2_scalar_elem ((1:ℚ)/4 + ((3:ℤ) : ℚ)) = sin1_2_scalar_elem (1/4)) :=
  ⟨by norm_num [abs_of_pos], by push_cast; norm_num [abs_of_pos],
   C4_periodicity (1/4) 3 (by norm_num [abs_of_pos])
     (by push_cast; norm_num [abs_of_pos])⟩

/-- C5 counterexample: `x = 2^31` is in the claim's scope — its
phase-reduced magnitude is 0, not the boundary 1/2 — and the vector
implementation is fully defined there (saturation, no UB), yet
`apply(-x) = 0` while `-apply(x) = 2^68 - 2^35`, so the claimed symmetry is
false as stated. -/
theorem C5_odd_symmetry_counterexample :
    |(2:ℚ)^31 - rne ((2:ℚ)^31)| ≠ 1/2 ∧
    sin1_2_sse2_elem (-((2:ℚ)^31)) ≠ -sin1_2_sse2_elem ((2:ℚ)^31) := by
  constructor
  · rw [two_pow31_cast, rne_intCast]
    norm_num
  · rw [sse2_elem_neg_two_pow31, sse2_elem_two_pow31]
    norm_num

/-- C5 (amended): odd symmetry — for inputs whose phase-reduced magnitude
is not at the interval boundary 1/2 and whose magnitude keeps the integer
conversions inside 32-bit range (`|x| ≤ 2^31 - 1`),
`apply(-x) = -apply(x)` in both implementations; beyond that range the
vector conversion's asymmetric saturation breaks the symmetry, see the
counterexample. -/
theorem C5_odd_symmetry (x : ℚ) (hx : |x| ≤ 2^31 - 1)
    (_hb : |x - rne x| ≠ 1/2) :
    sin1_2_sse2_elem (-x) = -sin1_2_sse2_elem x ∧
    sin1_2_scalar_elem (-x) = -sin1_2_scalar_elem x := by
  have hxn : |(-x)| ≤ 2^31 - 1 := by rwa [abs_neg]
  constructor
  · rw [sin1_2_sse2_elem_eq_rne hxn, sin1_2_sse2_elem_eq_rne hx,
      quadShape_rne_odd]
  · rw [sin1_2_scalar_elem_eq_rne, sin1_2_scalar_elem_eq_rne,
      quadShape_rne_odd]

/-- Witness for C5 at `x = 1/4`. -/
theorem C5_odd_symmetry_witness :
    (|(1:ℚ)/4| ≤ 2^31 - 1) ∧ (|(1:ℚ)/4 - rne (1/4)| ≠ 1/2) ∧
    (sin1_2_sse2_elem (-(1/4)) = -sin1_2_sse2_elem (1/4) ∧
     sin1_2_scalar_elem (-(1/4)) = -sin1_2_scalar_elem (1/4)) :=
  ⟨by norm_num [abs_of_pos], by norm_num [rne, abs_of_pos],
   C5_odd_symmetry (1/4) (by norm_num [abs_of_pos])
     (by norm_num [rne, abs_of_pos])⟩

/-- C6 counterexample: at the representable float `x = 2^31` the vector
implementation is fully defined (saturation, no UB) and outputs
`2^35 - 2^68`, of magnitude vastly exceeding 1, so "for every input
element" boundedness is false as stated. -/
theorem C6_boundedness_counterexample :
    sin1_2_sse2_elem ((2:ℚ)^31) = 2^35 - 2^68 ∧
    ¬(|sin1_2_sse2_elem ((2:ℚ)^31)| ≤ 1) := by
  refine ⟨sse2_elem_two_pow31, ?_⟩
  rw [sse2_elem_two_pow31, abs_of_neg (by norm_num : (2:ℚ)^35 - 2^68 < 0)]
  norm_num

/-- C6 (amended): boundedness — for every input whose magnitude keeps the
integer conversions inside 32-bit range (`|x| ≤ 2^31 - 1`), the output
magnitude never exceeds 1, the maximum of the quadratic shaping function,
in both implementations; at larger representable inputs the vector
conversion saturates and the output magnitude explodes, see the
counterexample. -/
theorem C6_boundedness (x : ℚ) (h : |x| ≤ 2^31 - 1) :
    |sin1_2_sse2_elem x| ≤ 1 ∧ |sin1_2_scalar_elem x| ≤ 1 := by
  obtain ⟨b1, b2⟩ := rne_sub_bounds x
  constructor
  · rw [sin1_2_sse2_elem_eq_rne h]
    exact quadShape_le_one b1 b2
  · rw [sin1_2_scalar_elem_eq_rne]
    exact quadShape_le_one b1 b2

/-- Witness for C6 at `x = 1/4`, where the bound 1 is attained. -/
theorem C6_boundedness_witness :
    (|(1:ℚ)/4| ≤ 2^31 - 1) ∧
    (|sin1_2_sse2_elem (1/4)| ≤ 1 ∧ |sin1_2_scalar_elem (1/4)| ≤ 1) :=
  ⟨by norm_num [abs_of_pos], C6_boundedness (1/4) (by norm_num [abs_of_pos])⟩

/-- C7 counterexample: at the IEEE-representable input `2^31`, the truncated
value of the scalar implementation's conversion `(int)x` does not fit in a
32-bit `int`, so the call is undefined behaviour rather than a well-defined
output. -/
theorem C7_large_input_counterexample : sin1_2_scalar_elem_chk (2^31) = none := by
  have ht : truncTowardZero ((2:ℚ)^31) = 2^31 := by
    unfold truncTowardZero
    rw [if_pos (by norm_num : (0:ℚ) ≤ 2^31),
      show ((2:ℚ)^31) = ((2^31 : ℤ) : ℚ) by push_cast; norm_num]
    exact Int.floor_intCast _
  unfold sin1_2_scalar_elem_chk cvt_int32
  rw [ht, if_neg (by norm_num)]
  rfl

/-- C7 (amended): both implementations are well defined for every input of
magnitude below `2^31`; there the scalar implementation's float-to-int
conversion is representable and the checked semantics agrees with the total
model.  (Inputs of magnitude `≥ 2^31` make the scalar conversion undefined
behaviour, see the counterexample.) -/
theorem C7_defined_domain (x : ℚ) (h : |x| < 2^31) :
    sin1_2_scalar_elem_chk x = some (sin1_2_scalar_elem x) := by
  obtain ⟨h1, h2⟩ := abs_lt.mp h
  have ht : -(2^31) ≤ truncTowardZero x ∧ truncTowardZero x ≤ 2^31 - 1 := by
    unfold truncTowardZero
    split_ifs with hx0
    · have hu : (⌊x⌋ : ℚ) ≤ x := Int.floor_le x
      have hup : (⌊x⌋ : ℚ) < ((2^31 : ℤ) : ℚ) := by push_cast; linarith
      have hup' : ⌊x⌋ < 2^31 := by exact_mod_cast hup
      have hlo : 0 ≤ ⌊x⌋ := Int.floor_nonneg.mpr hx0
      constructor <;> omega
    · have hu : x ≤ (⌈x⌉ : ℚ) := Int.le_ceil x
      have hup : ⌈x⌉ ≤ 0 := Int.ceil_le.mpr (by push_cast; linarith)
      have hlo : ((-(2^31) : ℤ) : ℚ) < (⌈x⌉ : ℚ) := by push_cast; linarith
      have hlo' : -(2^31) < ⌈x⌉ := by exact_mod_cast hlo
      constructor <;> omega
  unfold sin1_2_scalar_elem_chk cvt_int32
  rw [if_pos ht]
  rfl

/-- Witness for C7 (amended) at `x = 12345/2`. -/
theorem C7_defined_domain_witness :
    (|(12345:ℚ)/2| < 2^31) ∧
    sin1_2_scalar_elem_chk (12345/2) = some (sin1_2_scalar_elem (12345/2)) :=
  ⟨by norm_num [abs_of_pos], C7_defined_domain (12345/2) (by norm_num [abs_of_pos])⟩

/-- C8: error-registry totality over the closed code set
`{ERR_OK, ERR_NOMEM, ERR_LARGETEXT}`: names and texts are non-empty and
distinct per code, and `ufxr_errname ERR_LARGETEXT = "LARGETEXT"` as
documented in `error.h`. -/
theorem C8_error_registry_totality :
    (ufxr_errname ERR_OK ≠ "" ∧ ufxr_errtext ERR_OK ≠ "") ∧
    (ufxr_errname ERR_NOMEM ≠ "" ∧ ufxr_errtext ERR_NOMEM ≠ "") ∧
    (ufxr_errname ERR_LARGETEXT ≠ "" ∧ ufxr_errtext ERR_LARGETEXT ≠ "") ∧
    (ufxr_errname ERR_OK ≠ ufxr_errname ERR_NOMEM ∧
     ufxr_errname ERR_OK ≠ ufxr_errname ERR_LARGETEXT ∧
     ufxr_errname ERR_NOMEM ≠ ufxr_errname ERR_LARGETEXT) ∧
    (ufxr_errtext ERR_OK ≠ ufxr_errtext ERR_NOMEM ∧
     ufxr_errtext ERR_OK ≠ ufxr_errtext ERR_LARGETEXT ∧
     ufxr_errtext ERR_NOMEM ≠ ufxr_errtext ERR_LARGETEXT) ∧
    ufxr_errname ERR_OK = "OK" ∧
    ufxr_errname ERR_LARGETEXT = "LARGETEXT" := by
  decide

/-- C9: a call with `n = 0` satisfies the quantum precondition and leaves
the output buffer unchanged — for any contents of either buffer — in both
implementations. -/
theorem C9_zero_length_noop (outs xs : List ℚ) :
    0 % UFXR_QUANTUM = 0 ∧
    ufxr_sin1_2_sse2 0 outs xs = outs ∧
    ufxr_sin1_2_scalar 0 outs xs = outs := by
  refine ⟨rfl, ?_, ?_⟩
  · simp [ufxr_sin1_2_sse2, sseChunks_nil]
  · simp [ufxr_sin1_2_scalar]

/-- C10: at the fold boundary — phase-reduced magnitude exactly 1/2 — the
odd symmetry still holds, both outputs being zero, in both implementations;
no boundary exclusion is needed. -/
theorem C10_boundary_symmetry (x : ℚ) (hx : |x| ≤ 2^31 - 1)
    (hb : |x - rne x| = 1/2) :
    (sin1_2_sse2_elem (-x) = -sin1_2_sse2_elem x ∧ sin1_2_sse2_elem x = 0) ∧
    (sin1_2_scalar_elem (-x) = -sin1_2_scalar_elem x ∧
     sin1_2_scalar_elem x = 0) := by
  have hxn : |(-x)| ≤ 2^31 - 1 := by rwa [abs_neg]
  have hzero : quadShape (x - rne x) = 0 := by
    rcases (abs_eq (by norm_num : (0:ℚ) ≤ 1/2)).mp hb with h | h
    · rw [h]
      norm_num [quadShape, abs_of_pos]
    · rw [h]
      norm_num [quadShape, abs_of_neg]
  refine ⟨⟨?_, ?_⟩, ?_, ?_⟩
  · rw [sin1_2_sse2_elem_eq_rne hxn, sin1_2_sse2_elem_eq_rne hx,
      quadShape_rne_odd]
  · rw [sin1_2_sse2_elem_eq_rne hx, hzero]
  · rw [sin1_2_scalar_elem_eq_rne, sin1_2_scalar_elem_eq_rne,
      quadShape_rne_odd]
  · rw [sin1_2_scalar_elem_eq_rne, hzero]

/-- Witness for C10 at the boundary input `x = 1/2`. -/
theorem C10_boundary_symmetry_witness :
    (|(1:ℚ)/2| ≤ 2^31 - 1) ∧ (|(1:ℚ)/2 - rne (1/2)| = 1/2) ∧
    ((sin1_2_sse2_elem (-(1/2)) = -sin1_2_sse2_elem (1/2) ∧
      sin1_2_sse2_elem ((1:ℚ)/2) = 0) ∧
     (sin1_2_scalar_elem (-(1/2)) = -sin1_2_scalar_elem (1/2) ∧
      sin1_2_scalar_elem ((1:ℚ)/2) = 0)) :=
  ⟨by norm_num [abs_of_pos], by norm_num [rne, abs_of_pos],
   C10_boundary_symmetry (1/2) (by norm_num [abs_of_pos])
     (by norm_num [rne, abs_of_pos])⟩

end UltraFXR
